import Mathlib

/-!
Shallow embedding of the ClickHouse schema-migration step library of
akvorado (`orchestrator/clickhouse/migrationsteps.go`).

Modelling conventions:
* Go strings are Lean `String`s; the few Go standard-library string
  helpers used by the code (`strings.Split`, `strings.TrimSpace`,
  `strings.HasPrefix`, `strings.Join`, `strings.ReplaceAll` on a
  one-character pattern) are re-implemented below on `String.data`
  (all involved strings are ASCII, so byte-wise and character-wise
  behaviour coincide).
* `time.Duration` values are modelled as `Nat` nanosecond counts
  (the configuration only ever holds non-negative durations).
  `time.Duration` division is integer division on nanoseconds, and the
  truncating conversion `uint64(d.Seconds())` is modelled as floor
  division by 10^9.
* A migration step is modelled by its check query, its check arguments
  and the list of DDL statements its `Do` executes.  `Do` closures that
  read the current sorting key of the table from `system.tables`
  (through `appendToSortingKey`) are modelled as functions of that
  sorting key; steps that do not read it ignore the argument.
-/

namespace Akvorado

/-- Models Go `strings.Split(s, sep)` for a one-character separator,
on the character list of a string. -/
def goSplitCharAux (sep : Char) : List Char → List Char → List String
  | [], acc => [String.mk acc.reverse]
  | c :: cs, acc =>
    if c = sep then String.mk acc.reverse :: goSplitCharAux sep cs []
    else goSplitCharAux sep cs (c :: acc)

/-- Go `strings.Split(s, sep)` with a one-character separator `sep`. -/
def goSplitChar (sep : Char) (s : String) : List String :=
  goSplitCharAux sep s.data []

/-- Models Go `strings.TrimSpace` (strip leading and trailing whitespace). -/
def goTrimSpace (s : String) : String :=
  String.mk (((s.data.dropWhile Char.isWhitespace).reverse.dropWhile
    Char.isWhitespace).reverse)

/-- Models Go `strings.HasPrefix(s, pre)`. -/
def goHasPrefix (s pre : String) : Bool :=
  decide (pre.data <+: s.data)

/-- Models Go `strings.Contains(s, sub)`; used to state claims about
generated SQL text. -/
def goContains (s sub : String) : Bool :=
  decide (sub.data <:+: s.data)

/-- Models Go `strings.Join(elems, sep)`. -/
def goJoin (sep : String) : List String → String
  | [] => ""
  | [x] => x
  | x :: xs => x ++ sep ++ goJoin sep xs

/-- Models Go `strings.ReplaceAll(s, "\n", " ")` (the only use of
`ReplaceAll` in the migration steps; a one-character pattern makes it a
character-wise map). -/
def goReplaceNlSpace (s : String) : String :=
  String.mk (s.data.map (fun c => if c = '\n' then ' ' else c))

/-- Decimal representation of a natural number, as printed by Go's
`fmt` verb `%d` (and by `time.Duration`'s internal `fmtInt`). -/
def decRepAux : Nat → Nat → List Char → List Char
  | 0, _, acc => acc
  | fuel + 1, n, acc =>
    if n < 10 then Nat.digitChar (n % 10) :: acc
    else decRepAux fuel (n / 10) (Nat.digitChar (n % 10) :: acc)

/-- Decimal representation of a natural number (Go `%d`). -/
def decRep (n : Nat) : String :=
  String.mk (decRepAux (n + 1) n [])

/-- Fractional part printer of Go `time.Duration.String` (`fmtFrac`):
prints up to `prec` digits after a decimal point, omitting trailing
zeroes and the point itself when the fraction is zero; returns the
printed fragment together with `v / 10^prec`. -/
def fmtFrac : Nat → Nat → Bool → List Char → List Char × Nat
  | v, 0, print, acc => (if print then '.' :: acc else acc, v)
  | v, prec + 1, print, acc =>
    let d := v % 10
    let print := print || decide (d ≠ 0)
    fmtFrac (v / 10) prec print (if print then Nat.digitChar d :: acc else acc)

/-- Models Go `time.Duration.String()` for a non-negative duration of
`d` nanoseconds (`fmt.Sprintf("%s", duration)` uses it). -/
def goDurationString (d : Nat) : String :=
  if d = 0 then "0s"
  else if d < 1000 then decRep d ++ "ns"
  else if d < 1000000 then
    let fv := fmtFrac d 3 false []
    decRep fv.2 ++ String.mk fv.1 ++ "µs"
  else if d < 1000000000 then
    let fv := fmtFrac d 6 false []
    decRep fv.2 ++ String.mk fv.1 ++ "ms"
  else
    let fv := fmtFrac d 9 false []
    let frac := String.mk fv.1
    let u := fv.2
    let base := decRep (u % 60) ++ frac ++ "s"
    if u / 60 = 0 then base
    else
      let base := decRep (u / 60 % 60) ++ "m" ++ base
      if u / 60 / 60 = 0 then base
      else decRep (u / 60 / 60) ++ "h" ++ base

/-- Models the truncating conversion `uint64(d.Seconds())` applied to a
non-negative `time.Duration` of `d` nanoseconds.  `Seconds()` divides
the nanosecond count by 10^9; the `uint64` conversion truncates, so the
composite is floor division by 10^9. -/
def goSecondsTrunc (d : Nat) : Nat :=
  d / 1000000000

/-- The canonical schema for the flows table (`flowsSchema`,
`migrationsteps.go`). -/
def flowsSchema : String :=
  "\n TimeReceived DateTime CODEC(DoubleDelta, LZ4),\n SamplingRate UInt64,\n ExporterAddress LowCardinality(IPv6),\n ExporterName LowCardinality(String),\n ExporterGroup LowCardinality(String),\n ExporterRole LowCardinality(String),\n ExporterSite LowCardinality(String),\n ExporterRegion LowCardinality(String),\n ExporterTenant LowCardinality(String),\n SrcAddr IPv6,\n DstAddr IPv6,\n SrcNetMask UInt8,\n DstNetMask UInt8,\n SrcAS UInt32,\n DstAS UInt32,\n SrcNetName LowCardinality(String),\n DstNetName LowCardinality(String),\n SrcNetRole LowCardinality(String),\n DstNetRole LowCardinality(String),\n SrcNetSite LowCardinality(String),\n DstNetSite LowCardinality(String),\n SrcNetRegion LowCardinality(String),\n DstNetRegion LowCardinality(String),\n SrcNetTenant LowCardinality(String),\n DstNetTenant LowCardinality(String),\n SrcCountry FixedString(2),\n DstCountry FixedString(2),\n DstASPath Array(UInt32),\n Dst1stAS UInt32,\n Dst2ndAS UInt32,\n Dst3rdAS UInt32,\n DstCommunities Array(UInt32),\n DstLargeCommunities Array(UInt128),\n InIfName LowCardinality(String),\n OutIfName LowCardinality(String),\n InIfDescription String,\n OutIfDescription String,\n InIfSpeed UInt32,\n OutIfSpeed UInt32,\n InIfConnectivity LowCardinality(String),\n OutIfConnectivity LowCardinality(String),\n InIfProvider LowCardinality(String),\n OutIfProvider LowCardinality(String),\n InIfBoundary Enum8('undefined' = 0, 'external' = 1, 'internal' = 2),\n OutIfBoundary Enum8('undefined' = 0, 'external' = 1, 'internal' = 2),\n EType UInt32,\n Proto UInt32,\n SrcPort UInt32,\n DstPort UInt32,\n Bytes UInt64,\n Packets UInt64,\n ForwardingStatus UInt32\n"

/-- The check-query template built by `queryTableHash` (the hash
fingerprinter): bitAnd of a table-existence subquery (with an optional
extra predicate `more`) and a column-fingerprint comparison subquery. -/
def queryTableHash (hash : Nat) (more : String) : String :=
  "\nSELECT bitAnd(v1, v2) FROM (\n SELECT 1 AS v1\n FROM system.tables\n WHERE name = $1 AND database = currentDatabase() " ++ more ++
  "\n) t1, (\n SELECT groupBitXor(cityHash64(name,type,position)) == " ++ decRep hash ++
  " AS v2\n FROM system.columns\n WHERE table = $1 AND database = currentDatabase()\n) t2"

/-- Whether a schema line is removed by `partialSchema` for the removal
name `p`: Go `strings.HasPrefix(strings.TrimSpace(l), p + " ")`. -/
def partialSchemaRemoves (p l : String) : Bool :=
  goHasPrefix (goTrimSpace l) (p ++ " ")

/-- Go `partialSchema(remove...)`: the flows schema minus the lines
matched by one of the removal names, joined back with newlines. -/
def partialSchema (remove : List String) : String :=
  goJoin "\n" ((goSplitChar '\n' flowsSchema).filter
    (fun l => !(remove.any (fun p => partialSchemaRemoves p l))))

/-- Go `columnSpecToName`: strips an optional `IF NOT EXISTS ` prefix
and returns the first space-delimited token of a column spec. -/
def columnSpecToName (spec : String) : String :=
  let spec := if goHasPrefix spec "IF NOT EXISTS " then
    String.mk (spec.data.drop ("IF NOT EXISTS ".data.length)) else spec
  (goSplitChar ' ' spec).headD ""

/-- Helper for `addColumnsAfter`: one `ADD COLUMN ... AFTER ...` clause
per column spec, each chained after the previous column's name. -/
def addColumnsAfterList (last : String) : List String → List String
  | [] => []
  | c :: cs =>
    ("ADD COLUMN " ++ c ++ " AFTER " ++ last) :: addColumnsAfterList (columnSpecToName c) cs

/-- Go `addColumnsAfter(after, columns...)`. -/
def addColumnsAfter (after : String) (columns : List String) : String :=
  goJoin ", " (addColumnsAfterList after columns)

/-- Go `appendToSortingKey`: the `Do` closure reads the current
`sorting_key` of the table from `system.tables` and appends the new
column names; the value read is passed here as `sortingKey`. -/
def appendToSortingKey (sortingKey : String) (columns : List String) : String :=
  sortingKey ++ ", " ++ goJoin ", " columns

/-- Go `addColumnsAndUpdateSortingKey`: `ADD COLUMN` clauses, plus — for
every table other than `flows` — a `MODIFY ORDER BY` clause built from
the sorting key read from `system.tables` (passed as `sortingKey`). -/
def addColumnsAndUpdateSortingKey (sortingKey table after : String)
    (columns : List String) : String :=
  let modifications := [addColumnsAfter after columns]
  let columnNames := columns.map columnSpecToName
  let modifications := if table ≠ "flows" then
    modifications ++ ["MODIFY ORDER BY (" ++ appendToSortingKey sortingKey columnNames ++ ")"]
  else modifications
  goJoin ", " modifications

/-- A migration step: check query, check arguments, and the DDL
statements its `Do` executes.  The `String` argument of `doStmts` is the
`sorting_key` value read from `system.tables` during `Do` (only used by
steps that call `appendToSortingKey`). -/
structure MigrationStep where
  checkQuery : String
  args : List String
  doStmts : String → List String

/-- Go `nullMigrationStep`: check `SELECT 1`, no arguments, no-op `Do`. -/
def nullMigrationStep : MigrationStep :=
  { checkQuery := "SELECT 1", args := [], doStmts := fun _ => [] }

/-- The Step contract (spec §4.3): the Runner treats a step as already
applied iff its check query returns exactly one row whose sole column is
truthy; otherwise `Do` is invoked.  A check result is modelled as
`none` (no row) or `some v` (one row holding `v`). -/
def doInvoked : Option Nat → Bool
  | none => true
  | some v => v == 0

/-- Claim-side reading of the `partialSchema` contract: the first
whitespace-delimited token of a line, after trimming; `none` when the
trimmed line is empty. -/
def firstToken (l : String) : Option String :=
  if goTrimSpace l = "" then none
  else some (String.mk ((goTrimSpace l).data.takeWhile (fun c => !c.isWhitespace)))

/-- Claim-side removal predicate for `partialSchema`: a line is removed
iff its first whitespace-delimited token is a member of the removal
list. -/
def claimRemoves (remove : List String) (l : String) : Bool :=
  match firstToken l with
  | none => false
  | some t => remove.contains t

/-- Shape of a well-formed schema line, under which the source's
prefix-based removal test and the claim's first-token test coincide:
the trimmed line is either empty, or its first token is followed by a
space character. -/
def goodLine (l : String) : Bool :=
  ((goTrimSpace l).data.isEmpty) ||
    (((goTrimSpace l).data.dropWhile (fun c => !c.isWhitespace)).head? == some ' ')

theorem append_space_prefix_iff {p n : List Char} (r : List Char)
    (hp : ' ' ∉ p) (hn : ' ' ∉ n) : p ++ [' '] <+: n ++ ' ' :: r ↔ p = n := by
  induction p generalizing n with
  | nil =>
    cases n with
    | nil => simp [List.cons_prefix_cons]
    | cons c n' =>
      have hc : c ≠ ' ' := fun h => hn (h ▸ List.mem_cons_self c n')
      apply iff_of_false
      · intro h
        rw [List.nil_append, List.cons_append, List.cons_prefix_cons] at h
        exact hc h.1.symm
      · intro h
        simp at h
  | cons a p' ih =>
    cases n with
    | nil =>
      have ha : a ≠ ' ' := fun h => hp (h ▸ List.mem_cons_self a p')
      apply iff_of_false
      · intro h
        rw [List.cons_append, List.nil_append, List.cons_prefix_cons] at h
        exact ha h.1
      · intro h
        simp at h
    | cons c n' =>
      simp only [List.cons_append, List.cons_prefix_cons, List.cons.injEq]
      have hp' : ' ' ∉ p' := fun h => hp (List.mem_cons_of_mem a h)
      have hn' : ' ' ∉ n' := fun h => hn (List.mem_cons_of_mem c h)
      rw [ih hp' hn']

theorem removes_eq_claimRemoves (X : List String) (hX : ∀ p ∈ X, ' ' ∉ p.data)
    (l : String) (hl : goodLine l = true) :
    (X.any (fun p => partialSchemaRemoves p l)) = claimRemoves X l := by
  rw [Bool.eq_iff_iff]
  have hdata : ∀ p : String, (p ++ " ").data = p.data ++ [' '] := fun p => by
    rw [String.data_append]
  rcases Bool.or_eq_true _ _ |>.mp hl with hempty | hsp
  · -- the trimmed line is empty: neither side removes it
    have ht : (goTrimSpace l).data = [] := List.isEmpty_iff.mp hempty
    have hts : goTrimSpace l = "" := String.ext ht
    constructor
    · intro h
      rcases List.any_eq_true.mp h with ⟨p, -, hp⟩
      unfold partialSchemaRemoves goHasPrefix at hp
      rw [decide_eq_true_eq, hdata, ht] at hp
      rcases hp with ⟨t, ht'⟩
      simpa using congrArg List.length ht'
    · intro h
      unfold claimRemoves firstToken at h
      rw [if_pos hts] at h
      exact absurd h (by simp)
  · -- the trimmed line is `n ++ ' ' :: r` with `n` its first token
    set t : List Char := (goTrimSpace l).data with htdef
    set n : List Char := t.takeWhile (fun c => !c.isWhitespace) with hndef
    have hd : t.dropWhile (fun c => !c.isWhitespace) ≠ [] := by
      intro h
      rw [h] at hsp
      exact absurd hsp (by simp)
    have hsplit : t = n ++ ' ' :: (t.dropWhile (fun c => !c.isWhitespace)).tail := by
      conv_lhs => rw [← List.takeWhile_append_dropWhile (fun c => !c.isWhitespace) t]
      congr 1
      have hh : (t.dropWhile (fun c => !c.isWhitespace)).head? = some ' ' := by
        simpa using hsp
      rw [List.head?_eq_head hd] at hh
      have hh' : (t.dropWhile (fun c => !c.isWhitespace)).head hd = ' ' :=
        Option.some.inj hh
      conv_lhs => rw [← List.head_cons_tail _ hd]
      rw [hh']
    have hn : ' ' ∉ n := by
      intro h
      have := List.mem_takeWhile_imp h
      simp at this
    have htne : goTrimSpace l ≠ "" := by
      intro h
      have ht0 : t = [] := by rw [htdef, h]
      rw [hsplit] at ht0
      have hlen := congrArg List.length ht0
      simp only [List.length_append, List.length_cons, List.length_nil] at hlen
      omega
    constructor
    · intro h
      rcases List.any_eq_true.mp h with ⟨p, hmem, hp⟩
      unfold partialSchemaRemoves goHasPrefix at hp
      rw [decide_eq_true_eq, hdata, ← htdef, hsplit] at hp
      have hpn : p.data = n := (append_space_prefix_iff _ (hX p hmem) hn).mp hp
      unfold claimRemoves firstToken
      rw [if_neg htne]
      have : String.mk n = p := by rw [← hpn]
      simp only [← htdef, ← hndef, ← this]
      rw [List.contains_eq_any_beq]
      exact List.any_eq_true.mpr ⟨p, hmem, by rw [this]; exact beq_self_eq_true p⟩
    · intro h
      unfold claimRemoves firstToken at h
      rw [if_neg htne] at h
      simp only [← htdef, ← hndef] at h
      rw [List.contains_eq_any_beq] at h
      rcases List.any_eq_true.mp h with ⟨p, hmem, hp⟩
      have hpn : p = String.mk n := (beq_iff_eq.mp hp).symm
      apply List.any_eq_true.mpr
      refine ⟨p, hmem, ?_⟩
      unfold partialSchemaRemoves goHasPrefix
      rw [decide_eq_true_eq, hdata, ← htdef, hsplit]
      apply (append_space_prefix_iff _ (hX p hmem) hn).mpr
      rw [hpn]

set_option maxRecDepth 100000 in
theorem flowsSchema_lines_good : (goSplitChar '\n' flowsSchema).all goodLine = true := by
  decide

/-- A time-aggregation policy (`ResolutionConfiguration`): interval and
TTL, both `time.Duration`s modelled as nanosecond counts. -/
structure ResolutionConfiguration where
  interval : Nat
  ttl : Nat

/-- Name of the flow table governed by a resolution:`flows` for the
unaggregated resolution, `flows_<interval>` otherwise (Go
`fmt.Sprintf("flows_%s", resolution.Interval)`). -/
def flowsTableName (res : ResolutionConfiguration) : String :=
  if res.interval = 0 then "flows" else "flows_" ++ goDurationString res.interval

/-- Partition interval in seconds computed by
`migrationsStepCreateFlowsTable`:
`uint64((resolution.TTL / time.Duration(c.config.MaxPartitions)).Seconds())`.
Duration division is integer division on nanosecond counts. -/
def partitionIntervalSec (ttl maxPartitions : Nat) : Nat :=
  goSecondsTrunc (ttl / maxPartitions)

/-- The `PARTITION BY` clause shared by both branches of
`migrationsStepCreateFlowsTable`. -/
def partitionByClause (p : Nat) : String :=
  "PARTITION BY toYYYYMMDDhhmmss(toStartOfInterval(TimeReceived, INTERVAL " ++
    decRep p ++ " second))"

/-- The `CREATE TABLE flows` statement (unaggregated branch of
`migrationsStepCreateFlowsTable`). -/
def createFlowsStmt (ttl maxPartitions : Nat) : String :=
  "\nCREATE TABLE flows (\n" ++ flowsSchema ++ "\n)\nENGINE = MergeTree\n" ++
  partitionByClause (partitionIntervalSec ttl maxPartitions) ++
  "\nORDER BY (TimeReceived, ExporterAddress, InIfName, OutIfName)"

/-- Columns excluded from the schema of an aggregated flow table. -/
def aggExcludedColumns : List String :=
  ["SrcAddr", "DstAddr", "SrcNetMask", "DstNetMask", "SrcPort", "DstPort",
   "DstASPath", "DstCommunities", "DstLargeCommunities"]

/-- The `CREATE TABLE flows_<interval>` statement (aggregated branch of
`migrationsStepCreateFlowsTable`). -/
def createAggFlowsStmt (interval ttl maxPartitions : Nat) : String :=
  "\nCREATE TABLE " ++ ("flows_" ++ goDurationString interval) ++ " (\n" ++
  partialSchema aggExcludedColumns ++
  "\n)\nENGINE = SummingMergeTree((Bytes, Packets))\n" ++
  partitionByClause (partitionIntervalSec ttl maxPartitions) ++
  "\nPRIMARY KEY (TimeReceived,\n          ExporterAddress,\n          EType, Proto,\n          InIfName, SrcAS, ForwardingStatus,\n          OutIfName, DstAS,\n          SamplingRate)\nORDER BY (TimeReceived,\n          ExporterAddress,\n          EType, Proto,\n          InIfName, SrcAS, ForwardingStatus,\n          OutIfName, DstAS,\n          SamplingRate,\n          SrcNetName, DstNetName,\n          SrcNetRole, DstNetRole,\n          SrcNetSite, DstNetSite,\n          SrcNetRegion, DstNetRegion,\n          SrcNetTenant, DstNetTenant,\n          SrcCountry, DstCountry,\n          Dst1stAS, Dst2ndAS, Dst3rdAS)"

/-- Go `migrationsStepCreateFlowsTable(resolution)`: existence-checked
creation of the `flows` table (interval 0) or of an aggregated
`flows_<interval>` table (after dropping its consumer view). -/
def migrationsStepCreateFlowsTable (res : ResolutionConfiguration)
    (maxPartitions : Nat) : MigrationStep :=
  if res.interval = 0 then
    { checkQuery := "SELECT 1 FROM system.tables WHERE name = $1 AND database = currentDatabase()",
      args := ["flows"],
      doStmts := fun _ => [createFlowsStmt res.ttl maxPartitions] }
  else
    { checkQuery := "SELECT 1 FROM system.tables WHERE name = $1 AND database = currentDatabase()",
      args := ["flows_" ++ goDurationString res.interval],
      doStmts := fun _ =>
        ["DROP TABLE IF EXISTS " ++ ("flows_" ++ goDurationString res.interval ++ "_consumer") ++ " SYNC",
         createAggFlowsStmt res.interval res.ttl maxPartitions] }

/-- A row of `system.tables` for the current database: table name,
`sorting_key`, and an opaque descriptor standing for every other
attribute (columns, engine, partitioning, ...). -/
structure TableInfo where
  name : String
  sortingKey : String
  schema : String

/-- ClickHouse semantics of
`SELECT 1 FROM system.tables WHERE name = $1 AND database = currentDatabase()`:
one row holding 1 per matching table (none when the table is absent);
no other attribute of the table is inspected. -/
def evalTableExistsCheck (st : List TableInfo) (tableName : String) : Option Nat :=
  if st.any (fun t => t.name == tableName) then some 1 else none

/-- ClickHouse `splitByRegexp(',\\s*', s)`: split at each comma,
consuming the whitespace that follows it. -/
def splitByRegexpCommaWs (s : String) : List String :=
  match goSplitChar ',' s with
  | [] => []
  | f :: rest => f :: rest.map (fun l => String.mk (l.data.dropWhile Char.isWhitespace))

/-- ClickHouse semantics of the check query of
`migrationStepFixOrderByCountry`: one row holding 1 per matching table
whose `sorting_key`, split on commas, contains `SrcCountry`; no row
otherwise. -/
def evalFixOrderCheck (st : List TableInfo) (tableName : String) : Option Nat :=
  if st.any (fun t => t.name == tableName &&
      (splitByRegexpCommaWs t.sortingKey).contains "SrcCountry")
  then some 1 else none

/-- Go `migrationStepFixOrderByCountry(resolution)`: the null step for
the unaggregated resolution; otherwise checks for `SrcCountry` in the
sorting key of `flows_<interval>` and, when `Do` runs, drops both
country columns and re-adds them after `DstNetTenant`, updating the
sorting key. -/
def migrationStepFixOrderByCountry (res : ResolutionConfiguration) : MigrationStep :=
  if res.interval = 0 then nullMigrationStep
  else
    { checkQuery := "\nSELECT 1 FROM system.tables\nWHERE name = $1 AND database = currentDatabase()\nAND has(splitByRegexp(',\\\\s*', sorting_key), $2)",
      args := ["flows_" ++ goDurationString res.interval, "SrcCountry"],
      doStmts := fun sortingKey =>
        ["ALTER TABLE " ++ ("flows_" ++ goDurationString res.interval) ++
           " DROP COLUMN SrcCountry, DROP COLUMN DstCountry",
         "ALTER TABLE " ++ ("flows_" ++ goDurationString res.interval) ++ " " ++
           addColumnsAndUpdateSortingKey sortingKey ("flows_" ++ goDurationString res.interval)
             "DstNetTenant" ["SrcCountry FixedString(2)", "DstCountry FixedString(2)"]] }

/-- Go `migrationStepAddSrcNetMaskDstNetMaskColumns`: marker-column
check on `flows`, then `ADD COLUMN`s after `DstAddr` through
`addColumnsAndUpdateSortingKey` with table `flows`. -/
def migrationStepAddSrcNetMaskDstNetMaskColumns : MigrationStep :=
  { checkQuery := "\nSELECT 1 FROM system.columns\nWHERE table = $1 AND database = currentDatabase() AND name = $2",
    args := ["flows", "SrcNetMask"],
    doStmts := fun sortingKey =>
      ["ALTER TABLE flows " ++
        addColumnsAndUpdateSortingKey sortingKey "flows" "DstAddr"
          ["SrcNetMask UInt8", "DstNetMask UInt8"]] }

/-- The `SELECT` clause of the per-resolution consumer view
(`migrationsStepCreateFlowsConsumerTable`): built from a multi-line
template, then flattened (`strings.ReplaceAll(s, "\n", " ")`) and
trimmed (`strings.TrimSpace`). -/
def consumerSelectClause (interval : Nat) : String :=
  goTrimSpace (goReplaceNlSpace
    ("\nSELECT *\nEXCEPT (SrcAddr, DstAddr, SrcNetMask, DstNetMask, SrcPort, DstPort, DstASPath, DstCommunities, DstLargeCommunities)\nREPLACE toStartOfInterval(TimeReceived, toIntervalSecond(" ++
      decRep (goSecondsTrunc interval) ++ ")) AS TimeReceived"))

/-- The `CREATE MATERIALIZED VIEW` statement of the per-resolution
consumer view. -/
def createConsumerStmt (interval : Nat) : String :=
  "\nCREATE MATERIALIZED VIEW " ++ ("flows_" ++ goDurationString interval ++ "_consumer") ++
  " TO " ++ ("flows_" ++ goDurationString interval) ++ "\nAS " ++
  consumerSelectClause interval ++ "\nFROM " ++ "flows"

/-- Go `migrationsStepCreateFlowsConsumerTable(resolution)`: the null
step for the unaggregated resolution; otherwise a fingerprint-checked
drop-and-recreate of the consumer materialized view. -/
def migrationsStepCreateFlowsConsumerTable (res : ResolutionConfiguration) : MigrationStep :=
  if res.interval = 0 then nullMigrationStep
  else
    { checkQuery := queryTableHash 10874532506016793032
        ("AND as_select LIKE '" ++ consumerSelectClause res.interval ++ " FROM %'"),
      args := ["flows_" ++ goDurationString res.interval ++ "_consumer"],
      doStmts := fun _ =>
        ["DROP TABLE IF EXISTS " ++ ("flows_" ++ goDurationString res.interval ++ "_consumer") ++ " SYNC",
         createConsumerStmt res.interval] }

/-- Name of the raw Kafka-fed table:
`fmt.Sprintf("flows_%d_raw", flow.CurrentSchemaVersion)`. -/
def rawFlowsTableName (v : Nat) : String :=
  "flows_" ++ decRep v ++ "_raw"

/-- The Kafka engine clause of `migrationStepCreateRawFlowsTable`. -/
def kafkaEngineSettings (brokers : List String) (topic : String) (v consumers : Nat) : String :=
  "Kafka SETTINGS " ++ goJoin ", "
    ["kafka_broker_list = '" ++ goJoin "," brokers ++ "'",
     "kafka_topic_list = '" ++ topic ++ "-v" ++ decRep v ++ "'",
     "kafka_group_name = 'clickhouse'",
     "kafka_format = 'Protobuf'",
     "kafka_schema = 'flow-" ++ decRep v ++ ".proto:FlowMessagev" ++ decRep v ++ "'",
     "kafka_num_consumers = " ++ decRep consumers,
     "kafka_thread_per_consumer = 1",
     "kafka_handle_error_mode = 'stream'"]

/-- Columns excluded from the raw table schema: the ones derived by the
raw consumer materialized view (network enrichment, AS-path slicing,
large-community packing). -/
def rawExcludedColumns : List String :=
  ["SrcNetName", "DstNetName", "SrcNetRole", "DstNetRole", "SrcNetSite", "DstNetSite",
   "SrcNetRegion", "DstNetRegion", "SrcNetTenant", "DstNetTenant",
   "Dst1stAS", "Dst2ndAS", "Dst3rdAS", "DstLargeCommunities"]

/-- The `CREATE TABLE flows_<v>_raw` statement. -/
def createRawFlowsStmt (v : Nat) (engine : String) : String :=
  "\nCREATE TABLE " ++ rawFlowsTableName v ++ "\n(\n" ++
  partialSchema rawExcludedColumns ++
  ",\nDstLargeCommunities Nested(ASN UInt32, LocalData1 UInt32, LocalData2 UInt32)\n)\nENGINE = " ++
  engine

/-- Go `migrationStepCreateRawFlowsTable`: fingerprint-checked (plus an
exact `engine_full` predicate) drop-and-recreate of the raw Kafka-fed
table. -/
def migrationStepCreateRawFlowsTable (v : Nat) (brokers : List String)
    (topic : String) (consumers : Nat) : MigrationStep :=
  { checkQuery := queryTableHash 8163754828379578018 "AND engine_full = $2",
    args := [rawFlowsTableName v, kafkaEngineSettings brokers topic v consumers],
    doStmts := fun _ =>
      ["DROP TABLE IF EXISTS " ++ rawFlowsTableName v ++ "_consumer SYNC",
       "DROP TABLE IF EXISTS " ++ rawFlowsTableName v ++ " SYNC",
       createRawFlowsStmt v (kafkaEngineSettings brokers topic v consumers)] }

/-- ClickHouse `groupBitXor` over the `cityHash64(name,type,position)`
values of a table's columns (0 over an empty column set). -/
def groupBitXor (hashes : List Nat) : Nat :=
  hashes.foldl (fun a b => a ^^^ b) 0

/-- ClickHouse semantics of the query built by `queryTableHash`: a cross
join of a table-existence subquery (`tableRow`: a `system.tables` row
with the requested name exists in the current database, `moreOk`: the
optional extra predicate holds on it) with a one-row aggregate comparing
the column fingerprint of the table against `expected`; `bitAnd` of the
two values. -/
def evalQueryTableHash (expected : Nat) (tableRow moreOk : Bool)
    (columnHashes : List Nat) : Option Nat :=
  if tableRow && moreOk then
    some (Nat.land 1 (if groupBitXor columnHashes == expected then 1 else 0))
  else none

set_option maxRecDepth 200000

theorem flows_prefix_ne_flows (s : String) : "flows_" ++ s ≠ "flows" := by
  intro h
  have hlen := congrArg (fun x : String => x.data.length) h
  simp only [String.data_append, List.length_append] at hlen
  have h6 : ("flows_".data).length = 6 := by decide
  have h5 : ("flows".data).length = 5 := by decide
  rw [h6, h5] at hlen
  omega

/-- C2 (counterexample): at the concrete sorting key
`TimeReceived, ExporterAddress, InIfName, OutIfName` read during `Do`,
the single ALTER statement issued by `AddSrcNetMaskDstNetMask` contains
no `MODIFY ORDER BY` clause, contradicting the claim that it extends
the sort key of `flows`. -/
theorem claim_C2_counterexample :
    goContains ((migrationStepAddSrcNetMaskDstNetMaskColumns.doStmts
      "TimeReceived, ExporterAddress, InIfName, OutIfName").headD "")
      "MODIFY ORDER BY" = false := by
  decide

/-- C2 (amended): the step `AddSrcNetMaskDstNetMask` operates on the
`flows` table only, and its `Do` adds `SrcNetMask UInt8` and
`DstNetMask UInt8` after `DstAddr`; but because the target table is
`flows`, `addColumnsAndUpdateSortingKey` emits no `MODIFY ORDER BY`
clause, so the sorting key of `flows` is not extended. -/
theorem claim_C2 (sortingKey : String) :
    migrationStepAddSrcNetMaskDstNetMaskColumns.args = ["flows", "SrcNetMask"] ∧
    migrationStepAddSrcNetMaskDstNetMaskColumns.doStmts sortingKey =
      ["ALTER TABLE flows ADD COLUMN SrcNetMask UInt8 AFTER DstAddr, ADD COLUMN DstNetMask UInt8 AFTER SrcNetMask"] ∧
    goContains ((migrationStepAddSrcNetMaskDstNetMaskColumns.doStmts sortingKey).headD "")
      "MODIFY ORDER BY" = false := by
  have h2 : migrationStepAddSrcNetMaskDstNetMaskColumns.doStmts sortingKey =
      ["ALTER TABLE flows ADD COLUMN SrcNetMask UInt8 AFTER DstAddr, ADD COLUMN DstNetMask UInt8 AFTER SrcNetMask"] :=
    rfl
  refine ⟨rfl, h2, ?_⟩
  rw [h2]
  decide

/-- Expansion of `addColumnsAndUpdateSortingKey` for tables other than
`flows` (helper shared by several claims). -/
theorem addColumnsAndUpdateSortingKey_modify (sortingKey table after : String)
    (columns : List String) (hT : table ≠ "flows") :
    addColumnsAndUpdateSortingKey sortingKey table after columns =
      addColumnsAfter after columns ++ ", " ++ "MODIFY ORDER BY (" ++ sortingKey ++ ", " ++
        goJoin ", " (columns.map columnSpecToName) ++ ")" := by
  simp only [addColumnsAndUpdateSortingKey]
  rw [if_pos hT]
  show addColumnsAfter after columns ++ ", " ++
    ("MODIFY ORDER BY (" ++ appendToSortingKey sortingKey (columns.map columnSpecToName) ++ ")") = _
  unfold appendToSortingKey
  simp only [String.append_assoc]

/-- C7: for every table other than `flows` and every non-empty list of
column specs, `addColumnsAndUpdateSortingKey` produces the `ADD COLUMN`
clauses followed by a `MODIFY ORDER BY` clause whose content is the
current sorting key read from `system.tables`, verbatim, followed by
the new columns' names in argument order; in particular the existing
sorting key is a prefix of the new one. -/
theorem claim_C7 (sortingKey table after : String) (columns : List String)
    (hT : table ≠ "flows") (hC : columns ≠ []) :
    addColumnsAndUpdateSortingKey sortingKey table after columns =
      addColumnsAfter after columns ++ ", " ++ "MODIFY ORDER BY (" ++ sortingKey ++ ", " ++
        goJoin ", " (columns.map columnSpecToName) ++ ")" ∧
    sortingKey.data <+: (appendToSortingKey sortingKey (columns.map columnSpecToName)).data := by
  constructor
  · exact addColumnsAndUpdateSortingKey_modify sortingKey table after columns hT
  · exact ⟨(", " ++ goJoin ", " (columns.map columnSpecToName)).data,
      by simp [appendToSortingKey, String.data_append]⟩

/-- Witness for C7: the concrete instance used by `FixOrderByCountry`
on `flows_1m0s`, evaluated. -/
theorem claim_C7_witness :
    addColumnsAndUpdateSortingKey "TimeReceived, ExporterAddress" "flows_1m0s" "DstNetTenant"
      ["SrcCountry FixedString(2)", "DstCountry FixedString(2)"] =
      "ADD COLUMN SrcCountry FixedString(2) AFTER DstNetTenant, ADD COLUMN DstCountry FixedString(2) AFTER SrcCountry, MODIFY ORDER BY (TimeReceived, ExporterAddress, SrcCountry, DstCountry)" :=
  ((claim_C7 "TimeReceived, ExporterAddress" "flows_1m0s" "DstNetTenant"
      ["SrcCountry FixedString(2)", "DstCountry FixedString(2)"]
      (by decide) (by decide)).1).trans (by decide)

/-- C9: for every resolution, the check of `CreateFlowsTable(R)` is the
bare existence query on `system.tables` with the table name as sole
argument; under the Step contract, `Do` is not invoked exactly when a
table of that name exists, whatever its sorting key or any other schema
attribute. -/
theorem claim_C9 (res : ResolutionConfiguration) (maxPartitions : Nat) (st : List TableInfo) :
    (migrationsStepCreateFlowsTable res maxPartitions).checkQuery =
      "SELECT 1 FROM system.tables WHERE name = $1 AND database = currentDatabase()" ∧
    (migrationsStepCreateFlowsTable res maxPartitions).args = [flowsTableName res] ∧
    (doInvoked (evalTableExistsCheck st (flowsTableName res)) = false ↔
      ∃ t ∈ st, t.name = flowsTableName res) := by
  refine ⟨?_, ?_, ?_⟩
  · by_cases h : res.interval = 0 <;> simp [migrationsStepCreateFlowsTable, h]
  · by_cases h : res.interval = 0 <;>
      simp [migrationsStepCreateFlowsTable, flowsTableName, h]
  · constructor
    · intro hfalse
      by_contra hne
      have hnone : evalTableExistsCheck st (flowsTableName res) = none := by
        unfold evalTableExistsCheck
        rw [if_neg]
        intro hany
        rcases List.any_eq_true.mp hany with ⟨t, ht, hb⟩
        exact hne ⟨t, ht, beq_iff_eq.mp hb⟩
      rw [hnone] at hfalse
      simp [doInvoked] at hfalse
    · rintro ⟨t, ht, hname⟩
      have hany : st.any (fun t => t.name == flowsTableName res) = true :=
        List.any_eq_true.mpr ⟨t, ht, beq_iff_eq.mpr hname⟩
      unfold evalTableExistsCheck
      rw [if_pos hany]
      rfl

/-- C6: the check query built by the fingerprinter (`queryTableHash`)
is the bitAnd of an existence-plus-extra-predicate subquery and a
column-fingerprint comparison; under the modelled ClickHouse semantics
it yields `1` iff the table exists, the extra predicate holds and the
`groupBitXor` of the column hashes equals the expected constant, and a
falsy result (no row, or a row holding 0) in every other case. -/
theorem claim_C6 (expected : Nat) (more : String) (tableRow moreOk : Bool) (hs : List Nat) :
    queryTableHash expected more =
      "\nSELECT bitAnd(v1, v2) FROM (\n SELECT 1 AS v1\n FROM system.tables\n WHERE name = $1 AND database = currentDatabase() " ++ more ++
      "\n) t1, (\n SELECT groupBitXor(cityHash64(name,type,position)) == " ++ decRep expected ++
      " AS v2\n FROM system.columns\n WHERE table = $1 AND database = currentDatabase()\n) t2" ∧
    (evalQueryTableHash expected tableRow moreOk hs = some 1 ↔
      tableRow = true ∧ moreOk = true ∧ groupBitXor hs = expected) ∧
    (¬(tableRow = true ∧ moreOk = true ∧ groupBitXor hs = expected) →
      evalQueryTableHash expected tableRow moreOk hs = none ∨
      evalQueryTableHash expected tableRow moreOk hs = some 0) := by
  have hl1 : Nat.land 1 1 = 1 := by decide
  have hl0 : Nat.land 1 0 = 0 := by decide
  refine ⟨rfl, ?_, ?_⟩
  · cases tableRow <;> cases moreOk <;> by_cases h : groupBitXor hs = expected <;>
      simp [evalQueryTableHash, h, hl1, hl0, beq_iff_eq]
  · intro hnot
    cases tableRow <;> cases moreOk <;> by_cases h : groupBitXor hs = expected <;>
      simp [evalQueryTableHash, h, hl1, hl0, beq_iff_eq] <;>
      exact absurd ⟨rfl, rfl, h⟩ hnot

/-- Witness for C6: a concrete table state where check yields 1, via the
main theorem's iff. -/
theorem claim_C6_witness :
    evalQueryTableHash 5 true true [5] = some 1 :=
  (claim_C6 5 "" true true [5]).2.1.mpr ⟨rfl, rfl, by decide⟩

/-- C3: every governed flow table is partitioned by
`toYYYYMMDDhhmmss(toStartOfInterval(TimeReceived, INTERVAL p second))`
with `p` the whole-second floor of `TTL / MaxPartitions`; for the
documented resolutions at `MaxPartitions = 50`, `p` is 25920, 12096 and
630720 seconds for `flows`, `flows_1m0s` and `flows_1h0m0s`. -/
theorem claim_C3 (res : ResolutionConfiguration) (maxPartitions : Nat)
    (h : 0 < maxPartitions) :
    (partitionByClause (partitionIntervalSec res.ttl maxPartitions)).data <:+:
      (createFlowsStmt res.ttl maxPartitions).data ∧
    (partitionByClause (partitionIntervalSec res.ttl maxPartitions)).data <:+:
      (createAggFlowsStmt res.interval res.ttl maxPartitions).data ∧
    partitionIntervalSec res.ttl maxPartitions = res.ttl / maxPartitions / 1000000000 ∧
    partitionIntervalSec (15 * 86400 * 1000000000) 50 = 25920 ∧
    partitionIntervalSec (7 * 86400 * 1000000000) 50 = 12096 ∧
    partitionIntervalSec (365 * 86400 * 1000000000) 50 = 630720 ∧
    "flows_" ++ goDurationString 60000000000 = "flows_1m0s" ∧
    "flows_" ++ goDurationString 3600000000000 = "flows_1h0m0s" := by
  refine ⟨?_, ?_, rfl, by decide, by decide, by decide, by decide, by decide⟩
  · refine ⟨("\nCREATE TABLE flows (\n" ++ flowsSchema ++ "\n)\nENGINE = MergeTree\n").data,
      ("\nORDER BY (TimeReceived, ExporterAddress, InIfName, OutIfName)").data, ?_⟩
    simp [createFlowsStmt, String.data_append, List.append_assoc]
  · refine ⟨("\nCREATE TABLE " ++ ("flows_" ++ goDurationString res.interval) ++ " (\n" ++
        partialSchema aggExcludedColumns ++ "\n)\nENGINE = SummingMergeTree((Bytes, Packets))\n").data,
      ("\nPRIMARY KEY (TimeReceived,\n          ExporterAddress,\n          EType, Proto,\n          InIfName, SrcAS, ForwardingStatus,\n          OutIfName, DstAS,\n          SamplingRate)\nORDER BY (TimeReceived,\n          ExporterAddress,\n          EType, Proto,\n          InIfName, SrcAS, ForwardingStatus,\n          OutIfName, DstAS,\n          SamplingRate,\n          SrcNetName, DstNetName,\n          SrcNetRole, DstNetRole,\n          SrcNetSite, DstNetSite,\n          SrcNetRegion, DstNetRegion,\n          SrcNetTenant, DstNetTenant,\n          SrcCountry, DstCountry,\n          Dst1stAS, Dst2ndAS, Dst3rdAS)").data, ?_⟩
    simp [createAggFlowsStmt, String.data_append, List.append_assoc]

/-- Witness for C3: the cold-start resolutions of the spec, evaluated. -/
theorem claim_C3_witness :
    0 < 50 ∧ partitionIntervalSec (15 * 86400 * 1000000000) 50 = 25920 :=
  ⟨by decide, (claim_C3 ⟨0, 15 * 86400 * 1000000000⟩ 50 (by decide)).2.2.2.1⟩

/-- C10: a resolution with `TTL = 0` yields a partition interval of 0
— `uint64((TTL / MaxPartitions).Seconds())` degenerates to 0 — and the
emitted statement carries `INTERVAL 0 second`; in general the emitted
interval is the floor of the duration quotient truncated to whole
seconds. -/
theorem claim_C10 (res : ResolutionConfiguration) (maxPartitions : Nat)
    (h : res.ttl = 0) :
    partitionIntervalSec res.ttl maxPartitions = 0 ∧
    ("PARTITION BY toYYYYMMDDhhmmss(toStartOfInterval(TimeReceived, INTERVAL 0 second))").data <:+:
      (createFlowsStmt res.ttl maxPartitions).data ∧
    ("PARTITION BY toYYYYMMDDhhmmss(toStartOfInterval(TimeReceived, INTERVAL 0 second))").data <:+:
      (createAggFlowsStmt res.interval res.ttl maxPartitions).data ∧
    (∀ ttl mp : Nat, partitionIntervalSec ttl mp = ttl / mp / 1000000000) := by
  have h0 : partitionIntervalSec res.ttl maxPartitions = 0 := by
    rw [h]
    show 0 / maxPartitions / 1000000000 = 0
    simp
  have hpc : partitionByClause (partitionIntervalSec res.ttl maxPartitions) =
      "PARTITION BY toYYYYMMDDhhmmss(toStartOfInterval(TimeReceived, INTERVAL " ++ decRep 0 ++ " second))" := by
    rw [h0]
    rfl
  refine ⟨h0, ?_, ?_, fun _ _ => rfl⟩
  · refine ⟨("\nCREATE TABLE flows (\n" ++ flowsSchema ++ "\n)\nENGINE = MergeTree\n").data,
      ("\nORDER BY (TimeReceived, ExporterAddress, InIfName, OutIfName)").data, ?_⟩
    rw [createFlowsStmt, hpc]
    have hd : ("PARTITION BY toYYYYMMDDhhmmss(toStartOfInterval(TimeReceived, INTERVAL " ++ decRep 0 ++ " second))" : String) =
        "PARTITION BY toYYYYMMDDhhmmss(toStartOfInterval(TimeReceived, INTERVAL 0 second))" := by decide
    rw [hd]
    simp [String.data_append, List.append_assoc]
  · refine ⟨("\nCREATE TABLE " ++ ("flows_" ++ goDurationString res.interval) ++ " (\n" ++
        partialSchema aggExcludedColumns ++ "\n)\nENGINE = SummingMergeTree((Bytes, Packets))\n").data,
      ("\nPRIMARY KEY (TimeReceived,\n          ExporterAddress,\n          EType, Proto,\n          InIfName, SrcAS, ForwardingStatus,\n          OutIfName, DstAS,\n          SamplingRate)\nORDER BY (TimeReceived,\n          ExporterAddress,\n          EType, Proto,\n          InIfName, SrcAS, ForwardingStatus,\n          OutIfName, DstAS,\n          SamplingRate,\n          SrcNetName, DstNetName,\n          SrcNetRole, DstNetRole,\n          SrcNetSite, DstNetSite,\n          SrcNetRegion, DstNetRegion,\n          SrcNetTenant, DstNetTenant,\n          SrcCountry, DstCountry,\n          Dst1stAS, Dst2ndAS, Dst3rdAS)").data, ?_⟩
    rw [createAggFlowsStmt, hpc]
    have hd : ("PARTITION BY toYYYYMMDDhhmmss(toStartOfInterval(TimeReceived, INTERVAL " ++ decRep 0 ++ " second))" : String) =
        "PARTITION BY toYYYYMMDDhhmmss(toStartOfInterval(TimeReceived, INTERVAL 0 second))" := by decide
    rw [hd]
    simp [String.data_append, List.append_assoc]

/-- Witness for C10 at `TTL = 0`. -/
theorem claim_C10_witness :
    partitionIntervalSec 0 50 = 0 :=
  (claim_C10 ⟨60000000000, 0⟩ 50 rfl).1

/-- C1 (counterexample): a state where `flows_1m0s` exists and
`SrcCountry` sits in its sorting key, yet — the check query returning a
truthy row — `Do` is *not* invoked, contradicting the claim that `Do`
is invoked exactly when `SrcCountry` sits in the sort key. -/
theorem claim_C1_counterexample :
    doInvoked (evalFixOrderCheck
      [{ name := "flows_1m0s",
         sortingKey := "TimeReceived, ExporterAddress, SrcCountry, DstCountry, SrcNetName",
         schema := "" }] "flows_1m0s") = false ∧
    "SrcCountry" ∈ splitByRegexpCommaWs
      "TimeReceived, ExporterAddress, SrcCountry, DstCountry, SrcNetName" := by
  decide

/-- C1 (amended): for a resolution with `Interval = 0` the step is the
null step; for `Interval > 0`, under the Step contract, `Do` is invoked
exactly when *no* `flows_<Interval>` table exists whose sorting key
(split on commas) contains `SrcCountry` — i.e. when `SrcCountry` is
*absent* from the sort key, not present in it; the `Do` then drops the
`SrcCountry` and `DstCountry` columns and re-adds them after
`DstNetTenant`, appending both to the sorting key. -/
theorem claim_C1 (res : ResolutionConfiguration) (st : List TableInfo) (key : String)
    (h : res.interval ≠ 0) :
    (∀ ttl : Nat, migrationStepFixOrderByCountry ⟨0, ttl⟩ = nullMigrationStep) ∧
    (migrationStepFixOrderByCountry res).args =
      ["flows_" ++ goDurationString res.interval, "SrcCountry"] ∧
    (doInvoked (evalFixOrderCheck st ("flows_" ++ goDurationString res.interval)) = true ↔
      ¬ ∃ t ∈ st, t.name = "flows_" ++ goDurationString res.interval ∧
        "SrcCountry" ∈ splitByRegexpCommaWs t.sortingKey) ∧
    (migrationStepFixOrderByCountry res).doStmts key =
      ["ALTER TABLE " ++ ("flows_" ++ goDurationString res.interval) ++
         " DROP COLUMN SrcCountry, DROP COLUMN DstCountry",
       "ALTER TABLE " ++ ("flows_" ++ goDurationString res.interval) ++ " " ++
         (addColumnsAfter "DstNetTenant" ["SrcCountry FixedString(2)", "DstCountry FixedString(2)"] ++
          ", " ++ "MODIFY ORDER BY (" ++ key ++ ", " ++
          goJoin ", " (["SrcCountry FixedString(2)", "DstCountry FixedString(2)"].map columnSpecToName) ++ ")")] := by
  refine ⟨fun ttl => by simp [migrationStepFixOrderByCountry], ?_, ?_, ?_⟩
  · simp only [migrationStepFixOrderByCountry]
    rw [if_neg h]
  · constructor
    · intro htrue
      intro hex
      rcases hex with ⟨t, ht, hname, hmem⟩
      have hany : st.any (fun t => t.name == "flows_" ++ goDurationString res.interval &&
          (splitByRegexpCommaWs t.sortingKey).contains "SrcCountry") = true := by
        refine List.any_eq_true.mpr ⟨t, ht, ?_⟩
        rw [Bool.and_eq_true, beq_iff_eq]
        have hc : (splitByRegexpCommaWs t.sortingKey).contains "SrcCountry" = true := by
          rw [List.contains_eq_any_beq]
          exact List.any_eq_true.mpr ⟨"SrcCountry", hmem, beq_self_eq_true _⟩
        exact ⟨hname, hc⟩
      unfold evalFixOrderCheck at htrue
      rw [if_pos hany] at htrue
      simp [doInvoked] at htrue
    · intro hnone
      unfold evalFixOrderCheck
      rw [if_neg]
      · rfl
      intro hany
      rcases List.any_eq_true.mp hany with ⟨t, ht, hb⟩
      rw [Bool.and_eq_true, beq_iff_eq] at hb
      rcases hb with ⟨hname, hcont⟩
      rw [List.contains_eq_any_beq] at hcont
      rcases List.any_eq_true.mp hcont with ⟨x, hx, hbx⟩
      exact hnone ⟨t, ht, hname, beq_iff_eq.mp hbx ▸ hx⟩
  · simp only [migrationStepFixOrderByCountry]
    rw [if_neg h]
    show [_, "ALTER TABLE " ++ ("flows_" ++ goDurationString res.interval) ++ " " ++
      addColumnsAndUpdateSortingKey key ("flows_" ++ goDurationString res.interval)
        "DstNetTenant" ["SrcCountry FixedString(2)", "DstCountry FixedString(2)"]] = _
    rw [addColumnsAndUpdateSortingKey_modify key _ "DstNetTenant" _
      (flows_prefix_ne_flows _)]

/-- Witness for C1: at the 1-minute resolution over an empty
`system.tables` state, `Do` is invoked. -/
theorem claim_C1_witness :
    doInvoked (evalFixOrderCheck [] ("flows_" ++ goDurationString 60000000000)) = true :=
  ((claim_C1 ⟨60000000000, 0⟩ [] "k" (by decide)).2.2.1).mpr (by simp)

/-- C5: the raw Kafka-fed table's schema block is `flowsSchema` minus
exactly the lines whose first token is one of the fourteen
consumer-derived columns (ten network-enrichment columns, the three
AS-path columns, the packed `DstLargeCommunities`), with a
`DstLargeCommunities Nested(ASN UInt32, LocalData1 UInt32, LocalData2 UInt32)`
column appended; `DstASPath` and `DstCommunities` remain present. -/
theorem claim_C5 (v consumers : Nat) (brokers : List String) (topic key : String) :
    goSplitChar '\n' (partialSchema rawExcludedColumns) =
      (goSplitChar '\n' flowsSchema).filter (fun l => !(claimRemoves rawExcludedColumns l)) ∧
    " DstASPath Array(UInt32)," ∈ goSplitChar '\n' (partialSchema rawExcludedColumns) ∧
    " DstCommunities Array(UInt32)," ∈ goSplitChar '\n' (partialSchema rawExcludedColumns) ∧
    (" SrcNetName LowCardinality(String)," ∉ goSplitChar '\n' (partialSchema rawExcludedColumns)) ∧
    (migrationStepCreateRawFlowsTable v brokers topic consumers).doStmts key =
      ["DROP TABLE IF EXISTS " ++ rawFlowsTableName v ++ "_consumer SYNC",
       "DROP TABLE IF EXISTS " ++ rawFlowsTableName v ++ " SYNC",
       createRawFlowsStmt v (kafkaEngineSettings brokers topic v consumers)] ∧
    (",\nDstLargeCommunities Nested(ASN UInt32, LocalData1 UInt32, LocalData2 UInt32)\n)\nENGINE = ").data <:+:
      (createRawFlowsStmt v (kafkaEngineSettings brokers topic v consumers)).data := by
  refine ⟨by decide, by decide, by decide, by decide, rfl, ?_⟩
  · refine ⟨("\nCREATE TABLE " ++ rawFlowsTableName v ++ "\n(\n" ++
      partialSchema rawExcludedColumns).data,
      (kafkaEngineSettings brokers topic v consumers).data, ?_⟩
    simp [createRawFlowsStmt, String.data_append, List.append_assoc]

/-- C8: for every list of column names (no name contains a space),
`partialSchema` returns exactly the lines of `flowsSchema` whose first
whitespace-delimited token (after trimming) is not in the removal list,
unchanged and in their original order, joined by newlines. -/
theorem claim_C8 (X : List String) (hX : ∀ p ∈ X, ' ' ∉ p.data) :
    partialSchema X =
      goJoin "\n" ((goSplitChar '\n' flowsSchema).filter (fun l => !(claimRemoves X l))) := by
  unfold partialSchema
  congr 1
  apply List.filter_congr
  intro l hl
  have hg : goodLine l = true := List.all_eq_true.mp flowsSchema_lines_good l hl
  rw [removes_eq_claimRemoves X hX l hg]

/-- Witness for C8 at the removal list `[SrcAddr, DstAddr]`. -/
theorem claim_C8_witness :
    (∀ p ∈ (["SrcAddr", "DstAddr"] : List String), ' ' ∉ p.data) ∧
    partialSchema ["SrcAddr", "DstAddr"] =
      goJoin "\n" ((goSplitChar '\n' flowsSchema).filter
        (fun l => !(claimRemoves ["SrcAddr", "DstAddr"] l))) :=
  ⟨by decide, claim_C8 ["SrcAddr", "DstAddr"] (by decide)⟩

theorem digitChar_isDigit {m : Nat} (h : m < 10) : (Nat.digitChar m).isDigit = true := by
  rcases m with _|_|_|_|_|_|_|_|_|_|m
  · decide
  · decide
  · decide
  · decide
  · decide
  · decide
  · decide
  · decide
  · decide
  · decide
  · omega

theorem decRepAux_chars : ∀ (fuel n : Nat) (acc : List Char),
    (∀ c ∈ acc, c.isDigit = true) → ∀ c ∈ decRepAux fuel n acc, c.isDigit = true := by
  intro fuel
  induction fuel with
  | zero => intro n acc hacc c hc; exact hacc c hc
  | succ fuel ih =>
    intro n acc hacc c hc
    unfold decRepAux at hc
    by_cases h : n < 10
    · rw [if_pos h] at hc
      rcases List.mem_cons.mp hc with rfl | hc'
      · exact digitChar_isDigit (Nat.mod_lt _ (by omega))
      · exact hacc c hc'
    · rw [if_neg h] at hc
      refine ih (n / 10) _ ?_ c hc
      intro c' hc'
      rcases List.mem_cons.mp hc' with rfl | hc''
      · exact digitChar_isDigit (Nat.mod_lt _ (by omega))
      · exact hacc c' hc''

theorem decRep_chars (n : Nat) : ∀ c ∈ (decRep n).data, c.isDigit = true :=
  decRepAux_chars (n + 1) n [] (by intro c hc; exact absurd hc (List.not_mem_nil c))

theorem fmtFrac_chars : ∀ (prec v : Nat) (print : Bool) (acc : List Char),
    (∀ c ∈ acc, c.isDigit = true ∨ c = '.') →
    ∀ c ∈ (fmtFrac v prec print acc).1, c.isDigit = true ∨ c = '.' := by
  intro prec
  induction prec with
  | zero =>
    intro v print acc hacc c hc
    cases print with
    | false => exact hacc c hc
    | true =>
      rcases List.mem_cons.mp hc with rfl | hc'
      · exact Or.inr rfl
      · exact hacc c hc'
  | succ prec ih =>
    intro v print acc hacc c hc
    simp only [fmtFrac] at hc
    refine ih (v / 10) _ _ ?_ c hc
    intro c' hc'
    by_cases hp : (print || decide (v % 10 ≠ 0)) = true
    · rw [if_pos hp] at hc'
      rcases List.mem_cons.mp hc' with rfl | hc''
      · exact Or.inl (digitChar_isDigit (Nat.mod_lt _ (by omega)))
      · exact hacc c' hc''
    · rw [if_neg hp] at hc'
      exact hacc c' hc'

theorem mem_string_append {c : Char} {a b : String} (h : c ∈ (a ++ b).data) :
    c ∈ a.data ∨ c ∈ b.data := by
  rw [String.data_append] at h
  exact List.mem_append.mp h

/-- Every character printed by `goDurationString` is a digit or one of
the unit characters. -/
theorem goDurationString_chars (d : Nat) :
    ∀ c ∈ (goDurationString d).data,
      c.isDigit = true ∨ c ∈ ['.', 'n', 's', 'µ', 'm', 'h'] := by
  intro c hc
  unfold goDurationString at hc
  by_cases h0 : d = 0
  · rw [if_pos h0] at hc
    have : ("0s").data = ['0', 's'] := rfl
    rw [this] at hc
    rcases List.mem_cons.mp hc with rfl | hc'
    · exact Or.inl (by decide)
    · rcases List.mem_cons.mp hc' with rfl | hc''
      · exact Or.inr (by decide)
      · exact absurd hc'' (List.not_mem_nil c)
  · rw [if_neg h0] at hc
    by_cases h1 : d < 1000
    · rw [if_pos h1] at hc
      rcases mem_string_append hc with hd | hu
      · exact Or.inl (decRep_chars d c hd)
      · have : ("ns").data = ['n', 's'] := rfl
        rw [this] at hu
        rcases List.mem_cons.mp hu with rfl | hu'
        · exact Or.inr (by decide)
        · rcases List.mem_cons.mp hu' with rfl | hu''
          · exact Or.inr (by decide)
          · exact absurd hu'' (List.not_mem_nil c)
    · rw [if_neg h1] at hc
      have hfr : ∀ (prec : Nat) (unit : String),
          (∀ x ∈ unit.data, x ∈ (['.', 'n', 's', 'µ', 'm', 'h'] : List Char)) →
          c ∈ (decRep (fmtFrac d prec false []).2 ++ String.mk (fmtFrac d prec false []).1 ++ unit).data →
          c.isDigit = true ∨ c ∈ ['.', 'n', 's', 'µ', 'm', 'h'] := by
        intro prec unit hunit hmem
        rcases mem_string_append hmem with hl | hu
        · rcases mem_string_append hl with hd | hf
          · exact Or.inl (decRep_chars _ c hd)
          · rcases fmtFrac_chars prec d false []
              (fun x hx => absurd hx (List.not_mem_nil x)) c hf with hdig | hdot
            · exact Or.inl hdig
            · subst hdot
              exact Or.inr (by decide)
        · exact Or.inr (hunit c hu)
      by_cases h2 : d < 1000000
      · rw [if_pos h2] at hc
        exact hfr 3 "µs" (by decide) hc
      · rw [if_neg h2] at hc
        by_cases h3 : d < 1000000000
        · rw [if_pos h3] at hc
          exact hfr 6 "ms" (by decide) hc
        · rw [if_neg h3] at hc
          simp only at hc
          have hbase : ∀ x ∈ (decRep ((fmtFrac d 9 false []).2 % 60) ++
              String.mk (fmtFrac d 9 false []).1 ++ "s").data,
              x.isDigit = true ∨ x ∈ (['.', 'n', 's', 'µ', 'm', 'h'] : List Char) := by
            intro x hx
            rcases mem_string_append hx with hl | hu
            · rcases mem_string_append hl with hd | hf
              · exact Or.inl (decRep_chars _ x hd)
              · rcases fmtFrac_chars 9 d false []
                  (fun y hy => absurd hy (List.not_mem_nil y)) x hf with hdig | hdot
                · exact Or.inl hdig
                · subst hdot
                  exact Or.inr (by decide)
            · have : ("s").data = ['s'] := rfl
              rw [this] at hu
              rcases List.mem_cons.mp hu with rfl | hu'
              · exact Or.inr (by decide)
              · exact absurd hu' (List.not_mem_nil x)
          by_cases h4 : (fmtFrac d 9 false []).2 / 60 = 0
          · rw [if_pos h4] at hc
            exact hbase c hc
          · rw [if_neg h4] at hc
            have hmbase : ∀ x ∈ (decRep ((fmtFrac d 9 false []).2 / 60 % 60) ++ "m" ++
                (decRep ((fmtFrac d 9 false []).2 % 60) ++
                  String.mk (fmtFrac d 9 false []).1 ++ "s")).data,
                x.isDigit = true ∨ x ∈ (['.', 'n', 's', 'µ', 'm', 'h'] : List Char) := by
              intro x hx
              rcases mem_string_append hx with hl | hb
              · rcases mem_string_append hl with hd | hm
                · exact Or.inl (decRep_chars _ x hd)
                · have : ("m").data = ['m'] := rfl
                  rw [this] at hm
                  rcases List.mem_cons.mp hm with rfl | hm'
                  · exact Or.inr (by decide)
                  · exact absurd hm' (List.not_mem_nil x)
              · exact hbase x hb
            by_cases h5 : (fmtFrac d 9 false []).2 / 60 / 60 = 0
            · rw [if_pos h5] at hc
              exact hmbase c hc
            · rw [if_neg h5] at hc
              rcases mem_string_append hc with hl | hb
              · rcases mem_string_append hl with hd | hh
                · exact Or.inl (decRep_chars _ c hd)
                · have : ("h").data = ['h'] := rfl
                  rw [this] at hh
                  rcases List.mem_cons.mp hh with rfl | hh'
                  · exact Or.inr (by decide)
                  · exact absurd hh' (List.not_mem_nil c)
              · exact hmbase c hb

theorem decRep_no_G (n : Nat) : 'G' ∉ (decRep n).data := by
  intro hc
  have := decRep_chars n 'G' hc
  simp at this

theorem goDurationString_no_G (d : Nat) : 'G' ∉ (goDurationString d).data := by
  intro hc
  rcases goDurationString_chars d 'G' hc with h | h
  · simp at h
  · simp at h

/-- Flattened form of the consumer view's SELECT clause: replacing the
newlines of the template by spaces and trimming yields the one-line
clause, with the interval printed in whole seconds. -/
theorem consumerSelectClause_eq (interval : Nat) :
    consumerSelectClause interval =
      "SELECT * EXCEPT (SrcAddr, DstAddr, SrcNetMask, DstNetMask, SrcPort, DstPort, DstASPath, DstCommunities, DstLargeCommunities) REPLACE toStartOfInterval(TimeReceived, toIntervalSecond(" ++
        decRep (goSecondsTrunc interval) ++ ")) AS TimeReceived" := by
  have hmapD : List.map (fun c => if c = '\n' then ' ' else c)
      (decRep (goSecondsTrunc interval)).data = (decRep (goSecondsTrunc interval)).data := by
    have h1 : List.map (fun c => if c = '\n' then ' ' else c)
        (decRep (goSecondsTrunc interval)).data =
        List.map id (decRep (goSecondsTrunc interval)).data := by
      apply List.map_congr_left
      intro c hc
      have hd := decRep_chars _ c hc
      have hne : ¬ c = '\n' := by
        intro he
        rw [he] at hd
        exact absurd hd (by decide)
      simp [hne]
    rw [h1, List.map_id]
  have hflat : goReplaceNlSpace
      ("\nSELECT *\nEXCEPT (SrcAddr, DstAddr, SrcNetMask, DstNetMask, SrcPort, DstPort, DstASPath, DstCommunities, DstLargeCommunities)\nREPLACE toStartOfInterval(TimeReceived, toIntervalSecond(" ++
        decRep (goSecondsTrunc interval) ++ ")) AS TimeReceived") =
      String.mk ((" SELECT * EXCEPT (SrcAddr, DstAddr, SrcNetMask, DstNetMask, SrcPort, DstPort, DstASPath, DstCommunities, DstLargeCommunities) REPLACE toStartOfInterval(TimeReceived, toIntervalSecond(").data ++
        ((decRep (goSecondsTrunc interval)).data ++ (")) AS TimeReceived").data)) := by
    unfold goReplaceNlSpace
    apply congrArg String.mk
    rw [String.data_append, String.data_append, List.map_append, List.map_append, hmapD]
    have hpre : List.map (fun c => if c = '\n' then ' ' else c)
        ("\nSELECT *\nEXCEPT (SrcAddr, DstAddr, SrcNetMask, DstNetMask, SrcPort, DstPort, DstASPath, DstCommunities, DstLargeCommunities)\nREPLACE toStartOfInterval(TimeReceived, toIntervalSecond(").data =
        (" SELECT * EXCEPT (SrcAddr, DstAddr, SrcNetMask, DstNetMask, SrcPort, DstPort, DstASPath, DstCommunities, DstLargeCommunities) REPLACE toStartOfInterval(TimeReceived, toIntervalSecond(").data := by
      decide
    have hpost : List.map (fun c => if c = '\n' then ' ' else c)
        (")) AS TimeReceived").data = (")) AS TimeReceived").data := by decide
    rw [hpre, hpost, List.append_assoc]
  unfold consumerSelectClause
  rw [hflat]
  have hfront : ∀ M : List Char,
      List.dropWhile Char.isWhitespace
        ((" SELECT * EXCEPT (SrcAddr, DstAddr, SrcNetMask, DstNetMask, SrcPort, DstPort, DstASPath, DstCommunities, DstLargeCommunities) REPLACE toStartOfInterval(TimeReceived, toIntervalSecond(").data ++ M) =
        ("SELECT * EXCEPT (SrcAddr, DstAddr, SrcNetMask, DstNetMask, SrcPort, DstPort, DstASPath, DstCommunities, DstLargeCommunities) REPLACE toStartOfInterval(TimeReceived, toIntervalSecond(").data ++ M := by
    intro M
    rw [List.dropWhile_append]
    have h1 : List.dropWhile Char.isWhitespace
        (" SELECT * EXCEPT (SrcAddr, DstAddr, SrcNetMask, DstNetMask, SrcPort, DstPort, DstASPath, DstCommunities, DstLargeCommunities) REPLACE toStartOfInterval(TimeReceived, toIntervalSecond(").data =
        ("SELECT * EXCEPT (SrcAddr, DstAddr, SrcNetMask, DstNetMask, SrcPort, DstPort, DstASPath, DstCommunities, DstLargeCommunities) REPLACE toStartOfInterval(TimeReceived, toIntervalSecond(").data := by
      decide
    rw [h1, if_neg (by decide)]
  have hback : ∀ M : List Char,
      List.dropWhile Char.isWhitespace ((")) AS TimeReceived").data.reverse ++ M) =
        (")) AS TimeReceived").data.reverse ++ M := by
    intro M
    rw [List.dropWhile_append]
    have h2 : List.dropWhile Char.isWhitespace ((")) AS TimeReceived").data.reverse) =
        (")) AS TimeReceived").data.reverse := by decide
    rw [h2, if_neg (by decide)]
  apply String.ext
  show (((String.mk _).data.dropWhile Char.isWhitespace).reverse.dropWhile
      Char.isWhitespace).reverse = _
  rw [show (String.mk ((" SELECT * EXCEPT (SrcAddr, DstAddr, SrcNetMask, DstNetMask, SrcPort, DstPort, DstASPath, DstCommunities, DstLargeCommunities) REPLACE toStartOfInterval(TimeReceived, toIntervalSecond(").data ++
      ((decRep (goSecondsTrunc interval)).data ++ (")) AS TimeReceived").data))).data =
      (" SELECT * EXCEPT (SrcAddr, DstAddr, SrcNetMask, DstNetMask, SrcPort, DstPort, DstASPath, DstCommunities, DstLargeCommunities) REPLACE toStartOfInterval(TimeReceived, toIntervalSecond(").data ++
      ((decRep (goSecondsTrunc interval)).data ++ (")) AS TimeReceived").data) from rfl]
  rw [hfront]
  have hrev : (("SELECT * EXCEPT (SrcAddr, DstAddr, SrcNetMask, DstNetMask, SrcPort, DstPort, DstASPath, DstCommunities, DstLargeCommunities) REPLACE toStartOfInterval(TimeReceived, toIntervalSecond(").data ++
      ((decRep (goSecondsTrunc interval)).data ++ (")) AS TimeReceived").data)).reverse =
      (")) AS TimeReceived").data.reverse ++
        ((decRep (goSecondsTrunc interval)).data.reverse ++
          ("SELECT * EXCEPT (SrcAddr, DstAddr, SrcNetMask, DstNetMask, SrcPort, DstPort, DstASPath, DstCommunities, DstLargeCommunities) REPLACE toStartOfInterval(TimeReceived, toIntervalSecond(").data.reverse) := by
    simp [List.reverse_append, List.append_assoc]
  rw [hrev, hback, ← hrev, List.reverse_reverse]
  rw [String.data_append, String.data_append, List.append_assoc]

/-- No capital `G` occurs in the consumer SELECT clause. -/
theorem consumerSelectClause_no_G (interval : Nat) :
    'G' ∉ (consumerSelectClause interval).data := by
  intro hc
  rw [consumerSelectClause_eq] at hc
  rcases mem_string_append hc with h | h
  · rcases mem_string_append h with h' | h'
    · exact absurd h' (by decide)
    · exact decRep_no_G _ h'
  · exact absurd h (by decide)

/-- No capital `G` occurs in the consumer view's CREATE statement. -/
theorem createConsumerStmt_no_G (interval : Nat) :
    'G' ∉ (createConsumerStmt interval).data := by
  intro hc
  unfold createConsumerStmt at hc
  rcases mem_string_append hc with h | h
  case inr => exact absurd h (by decide)
  rcases mem_string_append h with h | h
  case inr => exact absurd h (by decide)
  rcases mem_string_append h with h | h
  case inr => exact consumerSelectClause_no_G _ h
  rcases mem_string_append h with h | h
  case inr => exact absurd h (by decide)
  rcases mem_string_append h with h | h
  case inr =>
    rcases mem_string_append h with h' | h'
    · exact absurd h' (by decide)
    · exact goDurationString_no_G _ h'
  rcases mem_string_append h with h | h
  case inr => exact absurd h (by decide)
  rcases mem_string_append h with h | h
  case inr =>
    rcases mem_string_append h with h' | h'
    · rcases mem_string_append h' with h'' | h''
      · exact absurd h'' (by decide)
      · exact goDurationString_no_G _ h''
    · exact absurd h' (by decide)
  exact absurd h (by decide)

/-- C4: for every resolution R with Interval > 0, the materialized view
created by `CreateFlowsConsumer(R)` is created after dropping the old
view, reads `FROM flows`, writes `TO flows_<Interval>`, projects
`SELECT *` minus exactly the nine listed columns with `TimeReceived`
replaced by `toStartOfInterval(TimeReceived, toIntervalSecond(<Interval
in seconds>))`, and its CREATE statement contains no `GROUP BY`; for
Interval = 0 the step is the null step. -/
theorem claim_C4 (res : ResolutionConfiguration) (key : String)
    (h : res.interval ≠ 0) :
    (∀ ttl : Nat, migrationsStepCreateFlowsConsumerTable ⟨0, ttl⟩ = nullMigrationStep) ∧
    (migrationsStepCreateFlowsConsumerTable res).doStmts key =
      ["DROP TABLE IF EXISTS " ++ ("flows_" ++ goDurationString res.interval ++ "_consumer") ++ " SYNC",
       createConsumerStmt res.interval] ∧
    consumerSelectClause res.interval =
      "SELECT * EXCEPT (SrcAddr, DstAddr, SrcNetMask, DstNetMask, SrcPort, DstPort, DstASPath, DstCommunities, DstLargeCommunities) REPLACE toStartOfInterval(TimeReceived, toIntervalSecond(" ++
        decRep (goSecondsTrunc res.interval) ++ ")) AS TimeReceived" ∧
    (" TO " ++ ("flows_" ++ goDurationString res.interval) ++ "\nAS ").data <:+:
      (createConsumerStmt res.interval).data ∧
    ("\nFROM " ++ "flows").data <:+ (createConsumerStmt res.interval).data ∧
    goContains (createConsumerStmt res.interval) "GROUP BY" = false := by
  refine ⟨fun ttl => by simp [migrationsStepCreateFlowsConsumerTable], ?_,
    consumerSelectClause_eq res.interval, ?_, ?_, ?_⟩
  · simp only [migrationsStepCreateFlowsConsumerTable]
    rw [if_neg h]
  · refine ⟨("\nCREATE MATERIALIZED VIEW " ++
        ("flows_" ++ goDurationString res.interval ++ "_consumer")).data,
      (consumerSelectClause res.interval ++ "\nFROM " ++ "flows").data, ?_⟩
    simp [createConsumerStmt, String.data_append, List.append_assoc]
  · refine ⟨("\nCREATE MATERIALIZED VIEW " ++
        ("flows_" ++ goDurationString res.interval ++ "_consumer") ++ " TO " ++
        ("flows_" ++ goDurationString res.interval) ++ "\nAS " ++
        consumerSelectClause res.interval).data, ?_⟩
    simp [createConsumerStmt, String.data_append, List.append_assoc]
  · unfold goContains
    apply decide_eq_false
    intro hinf
    exact createConsumerStmt_no_G res.interval (hinf.subset (by decide))

/-- Witness for C4 at the 1-minute resolution. -/
theorem claim_C4_witness :
    consumerSelectClause 60000000000 =
      "SELECT * EXCEPT (SrcAddr, DstAddr, SrcNetMask, DstNetMask, SrcPort, DstPort, DstASPath, DstCommunities, DstLargeCommunities) REPLACE toStartOfInterval(TimeReceived, toIntervalSecond(" ++
        decRep (goSecondsTrunc 60000000000) ++ ")) AS TimeReceived" :=
  (claim_C4 ⟨60000000000, 604800000000000⟩ "k" (by decide)).2.2.1

end Akvorado
